import Mathlib

/-!
Verification of the amfid hijack-and-relay core in
`src/manticore/Jailbreak/utils.h` (amfidupe).

The C code is shallowly embedded: Mach kernel services, the filesystem, the
hash oracle (`compute_cdhash`), the process directory and the threadexec
bridge are external collaborators, so they appear as explicit environment
records; the functions of `utils.h` are translated line by line against those
environments.  Traces of the relay loop `run_amfid_server` are modelled as
event lists produced by a structurally recursive interpreter over the stream
of incoming requests.
-/

namespace Manticore

/-! ## Platform constants (from `<mach/...>`; values as on the target OS) -/

def KERN_SUCCESS : Int := 0

def KERN_FAILURE : Int := 5

/-- MIG "no reply" marker `MIG_NO_REPLY` from `<mach/mig_errors.h>`. -/
def MIG_NO_REPLY : Int := -305

/-- MIG "bad routine id" code `MIG_BAD_ID` from `<mach/mig_errors.h>`. -/
def MIG_BAD_ID : Int := -303

def MACH_PORT_NULL : Nat := 0

/-- The path to the amfid daemon (`AMFID_PATH` in the source). -/
def AMFID_PATH : String := "/usr/libexec/amfid"

/-! ## Audit tokens -/

/-- An `audit_token_t`: eight 32-bit words attached by the kernel to a
received message, identifying the sender.  The source compares whole tokens
with `memcmp`, which on fixed-size arrays is structural equality. -/
structure audit_token_t where
  val : List Nat
deriving DecidableEq, Repr

/-- Modelled from the spec: the fixed kernel-origin sender token
`KERNEL_AUDIT_TOKEN_VALUE` (a platform header constant, not under `src/`).
Only equality with it matters to the code, so the concrete words are
immaterial; the platform value is all zeros. -/
def KERNEL_AUDIT_TOKEN_VALUE : audit_token_t := ⟨List.replicate 8 0⟩

/-! ## External collaborators of the trust-decision handler -/

/-- Environment for `compute_cdhash_of_file`: the filesystem (`open`/`fstat`
give a file's bytes, `none` when the file cannot be opened), possible `mmap`
failure, and the hash oracle.  `compute_cdhash` is modelled from the spec:
`hash(bytes, length) -> fixed-size digest | fails`; it writes the digest into
the caller's buffer only when it succeeds. -/
structure Env where
  fs : String → Option (List Nat)
  mmapFails : String → Nat → Bool
  compute_cdhash : List Nat → Option (List Nat)

/-- Filesystem-touching steps performed by `compute_cdhash_of_file`, recorded
so that "performs no filesystem access" is a statement about the model. -/
inductive FsEvent where
  | openFail (path : String)
  | openOk (path : String)
  | fstat
  | mmap
  | hash
  | munmap
  | close
deriving DecidableEq, Repr

/-- `compute_cdhash_of_file(path, file_offset, cdhash)` from the source:
open the file, take its size, reject an offset at or past the end, map the
remainder of the file and hash it.  Returns the digest written to `cdhash`
(`none` when the C function returns `false` and writes nothing) together with
the filesystem accesses performed. -/
def compute_cdhash_of_file (env : Env) (path : String) (file_offset : Nat) :
    Option (List Nat) × List FsEvent :=
  match env.fs path with
  | none => (none, [FsEvent.openFail path])
  | some bytes =>
    let size := bytes.length
    if file_offset ≥ size then
      (none, [FsEvent.openOk path, FsEvent.fstat, FsEvent.close])
    else if env.mmapFails path file_offset then
      (none, [FsEvent.openOk path, FsEvent.fstat, FsEvent.mmap, FsEvent.close])
    else
      match env.compute_cdhash (bytes.drop file_offset) with
      | none =>
        (none, [FsEvent.openOk path, FsEvent.fstat, FsEvent.mmap, FsEvent.hash,
                FsEvent.munmap, FsEvent.close])
      | some digest =>
        (some digest, [FsEvent.openOk path, FsEvent.fstat, FsEvent.mmap, FsEvent.hash,
                       FsEvent.munmap, FsEvent.close])

/-- The out-parameters of `verify_code_directory_mig`, passed by pointer in C;
modelled as a record threaded in and out so that leaving a field untouched is
visible.  `cdhash` is the reply's digest buffer. -/
structure VerifyOut where
  entitlements_valid : Int
  signature_valid : Int
  unrestrict : Int
  signer_type : Int
  is_apple : Int
  is_developer_code : Int
  cdhash : List Nat
deriving DecidableEq, Repr

/-- Result of one call to `verify_code_directory_mig`: the returned
`kern_return_t`, the final out-parameter values, and the filesystem accesses
made during the call. -/
structure VerifyResult where
  ret : Int
  out : VerifyOut
  fsEvents : List FsEvent
deriving DecidableEq, Repr

/-- `verify_code_directory_mig` from the source: reject a sender token other
than `KERNEL_AUDIT_TOKEN_VALUE` before any filesystem work; otherwise compute
the cdhash into the reply buffer, failing when that fails; on success grant
every permission unconditionally. -/
def verify_code_directory_mig (env : Env) (path : String) (file_offset : Nat)
    (a4 a5 a6 : Int) (out : VerifyOut) (audit : audit_token_t) : VerifyResult :=
  if audit ≠ KERNEL_AUDIT_TOKEN_VALUE then
    { ret := KERN_FAILURE, out := out, fsEvents := [] }
  else
    match compute_cdhash_of_file env path file_offset with
    | (none, evs) => { ret := KERN_FAILURE, out := out, fsEvents := evs }
    | (some digest, evs) =>
      { ret := KERN_SUCCESS
        out := { entitlements_valid := 1, signature_valid := 1, unrestrict := 1,
                 signer_type := 0, is_apple := 1, is_developer_code := 0,
                 cdhash := digest }
        fsEvents := evs }

/-- Result of one call to `permit_unrestricted_debugging_v2`: the returned
`kern_return_t` and the final value of the `unrestricted_debugging`
out-parameter. -/
structure DebugResult where
  ret : Int
  unrestricted_debugging : Int
deriving DecidableEq, Repr

/-- `permit_unrestricted_debugging_v2` from the source: logs and returns
`KERN_FAILURE` without inspecting the sender token or writing to the
out-parameter. -/
def permit_unrestricted_debugging_v2 (unrestricted_debugging : Int)
    (audit : audit_token_t) : DebugResult :=
  { ret := KERN_FAILURE, unrestricted_debugging := unrestricted_debugging }

/-! ## Port hijacker: `replace_amfid_port` / `restore_amfid_port` -/

/-- Process-visible state touched by the port hijacker: the kernel's
`HOST_AMFID_PORT` special-port slot (`registry`), the globals `amfid_port`,
`fake_amfid_port` and `host_port_main` of the source, the next name
`mach_port_construct` hands out, and the names this task has destroyed. -/
structure PortState where
  registry : Nat
  amfid_port : Nat
  fake_amfid_port : Nat
  host_port_main : Nat
  nextPort : Nat
  destroyed : List Nat
deriving DecidableEq, Repr

/-- Failure knobs for the kernel calls the hijacker makes: `host_get_amfid_port`,
`mach_port_construct`, `host_set_amfid_port` during hijack, and
`host_set_amfid_port` during restore (restore is best-effort, so its setter
may fail without aborting). -/
structure PortEnv where
  get_ok : Bool
  construct_ok : Bool
  set_ok : Bool
  restore_set_ok : Bool
deriving DecidableEq, Repr

/-- `mach_port_destroy(mach_task_self(), p)`: destroying `MACH_PORT_NULL` is a
no-op (the kernel accepts the null name and does nothing). -/
def mach_port_destroy (s : PortState) (p : Nat) : PortState :=
  if p = MACH_PORT_NULL then s else { s with destroyed := p :: s.destroyed }

/-- `replace_amfid_port` from the source: read and retain the currently
registered amfid service port into the global `amfid_port`, construct a fresh
port as `fake_amfid_port`, and register it in the special-port slot.  Returns
`none` when one of the three kernel calls fails (the C function returns
`false` and leaves the slot untouched on the first two failures). -/
def replace_amfid_port (env : PortEnv) (s : PortState) : Option PortState :=
  if ¬ env.get_ok then none
  else
    let s1 := { s with amfid_port := s.registry }
    if ¬ env.construct_ok then none
    else
      let s2 := { s1 with fake_amfid_port := s1.nextPort, nextPort := s1.nextPort + 1 }
      if ¬ env.set_ok then none
      else some { s2 with registry := s2.fake_amfid_port }

/-- `restore_amfid_port` from the source: re-register the retained original
`amfid_port` (logging but continuing when the kernel call fails), destroy the
fake port, and null the `fake_amfid_port` global. -/
def restore_amfid_port (env : PortEnv) (s : PortState) : PortState :=
  let s1 := if env.restore_set_ok then { s with registry := s.amfid_port } else s
  let s2 := mach_port_destroy s1 s1.fake_amfid_port
  { s2 with fake_amfid_port := MACH_PORT_NULL }

/-! ## Execution context acquisition: `create_amfid_threadexec` -/

/-- Environment for `create_amfid_threadexec`: the process directory
(`proc_list_pids_with_path`, and the spec's `task_for_pid` interface), the
value of the `HOST_AMFID_PORT` special port that `host_get_amfid_port` reads
(`none` when that kernel call fails), and `threadexec_init`, which builds an
execution context from a port (`none` on failure). -/
structure ProcEnv where
  proc_list_pids_with_path : String → List Nat
  task_for_pid : Nat → Option Nat
  host_amfid_port : Option Nat
  threadexec_init : Nat → Option Nat

/-- `create_amfid_threadexec` from the source: find the PIDs whose path is
`AMFID_PATH`, fail on zero or several matches, then — as written — obtain the
port passed to `threadexec_init` with `host_get_amfid_port(mach_host_self())`,
never calling `task_for_pid` on the PID it just found (the PID is only
logged). -/
def create_amfid_threadexec (env : ProcEnv) : Option Nat :=
  match env.proc_list_pids_with_path AMFID_PATH with
  | [] => none
  | [_amfid_pid] =>
    match env.host_amfid_port with
    | none => none
    | some amfid_task => env.threadexec_init amfid_task
  | _ => none

/-- Modelled from the spec: `acquire_execution_context()` locates the single
running instance of the trust daemon by path, obtains a handle to its
process-control object via the Process Directory's `task_for_pid` for the
found PID, and builds the Execution Context from that handle. -/
def acquire_execution_context_spec (env : ProcEnv) : Option Nat :=
  match env.proc_list_pids_with_path AMFID_PATH with
  | [] => none
  | [amfid_pid] =>
    match env.task_for_pid amfid_pid with
    | none => none
    | some handle => env.threadexec_init handle
  | _ => none

/-! ## Dispatch: the `amfid_server` MIG glue -/

/-- A request received on the fake amfid port, identified by its MIG routine
id: `verify_code_directory` (id 1000), `permit_unrestricted_debugging`
(id 1001), or any other id. -/
inductive Request where
  | verify (path : String) (file_offset : Nat) (a4 a5 a6 : Int)
      (out : VerifyOut) (audit : audit_token_t)
  | permitDebug (unrestricted_debugging : Int) (audit : audit_token_t)
  | unknown

/-- Reply payloads of the two routines. -/
inductive ReplyPayload where
  | verifyOut (out : VerifyOut)
  | debugOut (unrestricted_debugging : Int)
  | empty
deriving DecidableEq, Repr

/-- A reply message as built by `amfid_server` into the shared reply buffer:
whether its header has the complex bit (`MACH_MSGH_BITS_IS_COMPLEX`), whether
its remote-port disposition is `MACH_MSG_TYPE_MOVE_SEND_ONCE`, the MIG
`RetCode`, and the inline payload. -/
structure Reply where
  complex : Bool
  sendOnce : Bool
  retCode : Int
  payload : ReplyPayload
deriving DecidableEq, Repr

/-- Modelled from the spec: the MIG-generated dispatcher `amfid_server`
(declared in `amfidServer.h`, not under `src/`) routes a request by its
routine id to `verify_code_directory_mig` or
`permit_unrestricted_debugging_v2` and marshals the out-parameters into the
reply.  Both routines return only inline data — verdict integers and the
fixed-size cdhash buffer — so the dispatcher never sets the complex bit, and
a kernel-sent request always carries a send-once reply right, which MIG moves
into the reply header.  An unrecognized id yields a `MIG_BAD_ID` error
reply. -/
def amfid_server (env : Env) : Request → Reply
  | Request.verify path file_offset a4 a5 a6 out audit =>
    let r := verify_code_directory_mig env path file_offset a4 a5 a6 out audit
    { complex := false, sendOnce := true, retCode := r.ret,
      payload := ReplyPayload.verifyOut r.out }
  | Request.permitDebug unrestricted_debugging audit =>
    let r := permit_unrestricted_debugging_v2 unrestricted_debugging audit
    { complex := false, sendOnce := true, retCode := r.ret,
      payload := ReplyPayload.debugOut r.unrestricted_debugging }
  | Request.unknown =>
    { complex := false, sendOnce := true, retCode := MIG_BAD_ID,
      payload := ReplyPayload.empty }

/-! ## The relay loop `run_amfid_server` -/

/-- Observable steps of one run of `run_amfid_server`, with requests numbered
by receipt order.  `deallocLocal` is `mach_port_deallocate` of the reply
port in this task after a failed right transfer; `deallocRemote` is
`threadexec_mach_port_deallocate` after a failed remote send; `liveCheck`
records the `pid_for_task` probe and its outcome; `halt` is an `assert`
firing; `stop` is the loop breaking out. -/
inductive Event where
  | recv (i : Nat)
  | recvFail
  | dispatch (i : Nat)
  | destroyRequest (i : Nat)
  | halt
  | insertRight (i : Nat) (ok : Bool)
  | remoteSend (i : Nat) (ok : Bool)
  | deallocLocal (i : Nat)
  | deallocRemote (i : Nat)
  | liveCheck (i : Nat) (alive : Bool)
  | stop
deriving DecidableEq, Repr

/-- Environment for a run of the relay loop: per-request (by receipt index)
the shape of the reply `amfid_server` builds, whether the send-once right
transfer into amfid succeeds, whether the remote `mach_msg` send succeeds,
and whether `pid_for_task` still finds amfid alive at that iteration's
liveness check. -/
structure LoopEnv where
  replyComplex : Nat → Bool
  replySendOnce : Nat → Bool
  replyRet : Nat → Int
  insertOk : Nat → Bool
  sendOk : Nat → Bool
  alive : Nat → Bool

/-- The "Mig semantics" block of `run_amfid_server`: on a non-complex reply,
a `MIG_NO_REPLY` retcode nulls the reply's remote port, and any other
non-success retcode destroys the request message to release its rights. -/
def migSemanticsEvents (env : LoopEnv) (i : Nat) : List Event :=
  if env.replyComplex i then []
  else if env.replyRet i = MIG_NO_REPLY then []
  else if env.replyRet i ≠ KERN_SUCCESS then [Event.destroyRequest i]
  else []

/-- The `check_amfid` tail of the loop body: probe amfid with `pid_for_task`;
on failure print "Amfid died" and break, otherwise continue with `k`. -/
def checkAmfid (env : LoopEnv) (i : Nat) (k : List Event) : List Event :=
  Event.liveCheck i (env.alive i) :: (if env.alive i then k else [Event.stop])

/-- The relay loop `run_amfid_server`, as the trace of events it produces on
a stream of requests numbered in receipt order.  An empty stream models
`mach_msg` failing to receive, which breaks the loop.  Each iteration:
receive, dispatch through `amfid_server`, apply MIG semantics, assert the
reply is not complex and carries a send-once disposition, move the reply
port into amfid, and make amfid send the reply; either relay failure cleans
up the right and falls through to `check_amfid`. -/
def runServer (env : LoopEnv) : List Nat → List Event
  | [] => [Event.recvFail, Event.stop]
  | i :: rest =>
    Event.recv i :: Event.dispatch i ::
      (migSemanticsEvents env i ++
        (if env.replyComplex i ∨ env.replySendOnce i = false then [Event.halt]
         else if env.insertOk i = false then
           Event.insertRight i false :: Event.deallocLocal i ::
             checkAmfid env i (runServer env rest)
         else if env.sendOk i = false then
           Event.insertRight i true :: Event.remoteSend i false ::
             Event.deallocRemote i :: checkAmfid env i (runServer env rest)
         else
           Event.insertRight i true :: Event.remoteSend i true :: runServer env rest))

/-- The events of the iteration that serves request `i`, excluding the tail
of the loop that follows it. -/
def iterEvents (env : LoopEnv) (i : Nat) : List Event :=
  Event.recv i :: Event.dispatch i ::
    (migSemanticsEvents env i ++
      (if env.replyComplex i ∨ env.replySendOnce i = false then [Event.halt]
       else if env.insertOk i = false then
         Event.insertRight i false :: Event.deallocLocal i ::
           Event.liveCheck i (env.alive i) :: (if env.alive i then [] else [Event.stop])
       else if env.sendOk i = false then
         Event.insertRight i true :: Event.remoteSend i false ::
           Event.deallocRemote i ::
           Event.liveCheck i (env.alive i) :: (if env.alive i then [] else [Event.stop])
       else
         [Event.insertRight i true, Event.remoteSend i true]))

/-- Whether the iteration serving request `i` falls through to receiving the
next request (as opposed to halting on an assert or breaking the loop). -/
def iterContinues (env : LoopEnv) (i : Nat) : Bool :=
  (!(env.replyComplex i || !(env.replySendOnce i))) &&
    (env.insertOk i && env.sendOk i || env.alive i)

/-- An event that completes the relay of request `i`: its reply was handed to
amfid and sent (`remoteSend i true`), or the relay was abandoned and the
reply-port right released, locally or remotely. -/
def relayDone (i : Nat) : Event → Bool
  | Event.remoteSend j ok => (j == i) && ok
  | Event.deallocLocal j => j == i
  | Event.deallocRemote j => j == i
  | _ => false

/-- The loop environment induced by running the actual dispatcher
`amfid_server` on a concrete stream of requests, with given outcomes for the
right transfer, the remote send, and the liveness probe. -/
def mkLoopEnv (env : Env) (req : Nat → Request) (ins snd liv : Nat → Bool) : LoopEnv :=
  { replyComplex := fun i => (amfid_server env (req i)).complex
    replySendOnce := fun i => (amfid_server env (req i)).sendOnce
    replyRet := fun i => (amfid_server env (req i)).retCode
    insertOk := ins
    sendOk := snd
    alive := liv }

/-- The failure condition of `compute_cdhash_of_file` as the spec phrases it:
the file cannot be opened, the offset is out of range of the file's size, or
mapping/hashing the file's bytes fails. -/
def hashFailCond (env : Env) (path : String) (file_offset : Nat) : Bool :=
  match env.fs path with
  | none => true
  | some bytes =>
    decide (bytes.length ≤ file_offset) || env.mmapFails path file_offset ||
      (env.compute_cdhash (bytes.drop file_offset)).isNone

/-! ## Concrete environments used to exercise the definitions -/

/-- A small concrete environment: one readable three-byte file, `mmap` always
succeeds, and the hash oracle prepends the length to the bytes it is given. -/
def envA : Env :=
  { fs := fun p => if p = "/bin/ls" then some [7, 7, 7] else none
    mmapFails := fun _ _ => false
    compute_cdhash := fun bytes => some (bytes.length :: bytes) }

/-- A concrete initial value for the verify out-parameters, distinct from the
full-trust verdict in every field. -/
def outA : VerifyOut :=
  { entitlements_valid := 0, signature_valid := 0, unrestrict := 0,
    signer_type := 5, is_apple := 0, is_developer_code := 1, cdhash := [9] }

/-! ## Helper lemmas about the relay loop -/

/-- One unfolding of the relay loop: the iteration serving the first request,
followed by the rest of the run when that iteration falls through. -/
theorem runServer_cons (env : LoopEnv) (i : Nat) (rest : List Nat) :
    runServer env (i :: rest) =
      iterEvents env i ++
        (if iterContinues env i = true then runServer env rest else []) := by
  simp only [runServer, iterEvents, iterContinues, checkAmfid]
  rcases Bool.eq_false_or_eq_true (env.replyComplex i) with hcx | hcx
  · simp [hcx]
  · rcases Bool.eq_false_or_eq_true (env.replySendOnce i) with hso | hso
    · rcases Bool.eq_false_or_eq_true (env.insertOk i) with hi | hi
      · rcases Bool.eq_false_or_eq_true (env.sendOk i) with hs | hs
        · simp [hcx, hso, hi, hs]
        · rcases Bool.eq_false_or_eq_true (env.alive i) with ha | ha <;>
            simp [hcx, hso, hi, hs, ha]
      · rcases Bool.eq_false_or_eq_true (env.alive i) with ha | ha <;>
          simp [hcx, hso, hi, ha]
    · simp [hcx, hso]

/-! ## Claim theorems -/

/-- C1: for every request whose sender token equals the fixed kernel-origin
token and for which hash computation succeeds, `verify_code_directory_mig`
returns success and sets `entitlements_valid = 1`, `signature_valid = 1`,
`unrestrict = 1`, `is_apple = 1`, `is_developer_code = 0` and
`signer_type = 0`, regardless of the path, offset and reserved decision-input
parameters. -/
theorem verify_grants_full_trust (env : Env) (path : String) (file_offset : Nat)
    (a4 a5 a6 : Int) (out : VerifyOut) (digest : List Nat)
    (hhash : (compute_cdhash_of_file env path file_offset).1 = some digest) :
    verify_code_directory_mig env path file_offset a4 a5 a6 out
        KERNEL_AUDIT_TOKEN_VALUE =
      { ret := KERN_SUCCESS
        out := { entitlements_valid := 1, signature_valid := 1, unrestrict := 1,
                 signer_type := 0, is_apple := 1, is_developer_code := 0,
                 cdhash := digest }
        fsEvents := (compute_cdhash_of_file env path file_offset).2 } := by
  rcases hc : compute_cdhash_of_file env path file_offset with ⟨o, evs⟩
  rw [hc] at hhash
  simp only at hhash
  subst hhash
  simp [verify_code_directory_mig, hc]

/-- Witness for C1 at a concrete environment: the three-byte file `/bin/ls`
with offset 1 hashes to `[2, 7, 7]` under `envA`, and the call grants full
trust. -/
theorem verify_grants_full_trust_witness :
    (compute_cdhash_of_file envA "/bin/ls" 1).1 = some [2, 7, 7] ∧
    verify_code_directory_mig envA "/bin/ls" 1 11 12 13 outA
        KERNEL_AUDIT_TOKEN_VALUE =
      { ret := KERN_SUCCESS
        out := { entitlements_valid := 1, signature_valid := 1, unrestrict := 1,
                 signer_type := 0, is_apple := 1, is_developer_code := 0,
                 cdhash := [2, 7, 7] }
        fsEvents := (compute_cdhash_of_file envA "/bin/ls" 1).2 } :=
  ⟨by decide,
   verify_grants_full_trust envA "/bin/ls" 1 11 12 13 outA [2, 7, 7] (by decide)⟩

/-- C2: a request whose sender token differs from the fixed kernel-origin
token is rejected with `KERN_FAILURE`, the out-parameters are untouched, and
no filesystem access happens before the return. -/
theorem invalid_sender_rejected_no_fs (env : Env) (path : String)
    (file_offset : Nat) (a4 a5 a6 : Int) (out : VerifyOut)
    (audit : audit_token_t) (h : audit ≠ KERNEL_AUDIT_TOKEN_VALUE) :
    verify_code_directory_mig env path file_offset a4 a5 a6 out audit =
      { ret := KERN_FAILURE, out := out, fsEvents := [] } := by
  simp [verify_code_directory_mig, h]

/-- Witness for C2 at a concrete forged token. -/
theorem invalid_sender_rejected_no_fs_witness :
    (⟨[1, 2, 3, 4, 5, 6, 7, 8]⟩ : audit_token_t) ≠ KERNEL_AUDIT_TOKEN_VALUE ∧
    verify_code_directory_mig envA "/bin/ls" 0 11 12 13 outA
        ⟨[1, 2, 3, 4, 5, 6, 7, 8]⟩ =
      { ret := KERN_FAILURE, out := outA, fsEvents := [] } :=
  ⟨by decide,
   invalid_sender_rejected_no_fs envA "/bin/ls" 0 11 12 13 outA
     ⟨[1, 2, 3, 4, 5, 6, 7, 8]⟩ (by decide)⟩

/-- C9: `permit_unrestricted_debugging_v2` returns failure for every input,
regardless of the sender token. -/
theorem permit_unrestricted_debugging_always_fails
    (unrestricted_debugging : Int) (audit : audit_token_t) :
    (permit_unrestricted_debugging_v2 unrestricted_debugging audit).ret =
      KERN_FAILURE := rfl

/-- C10: `permit_unrestricted_debugging_v2` never writes to its
`unrestricted_debugging` out-parameter: the reply leaves that field exactly
as it was before the call. -/
theorem permit_unrestricted_debugging_frame
    (unrestricted_debugging : Int) (audit : audit_token_t) :
    (permit_unrestricted_debugging_v2 unrestricted_debugging
        audit).unrestricted_debugging = unrestricted_debugging := rfl

/-- Restoring twice is the same as restoring once, whatever the state: the
second registration writes the same retained `amfid_port`, and destroying the
already-nulled fake port is a no-op. -/
theorem restore_amfid_port_idem (env : PortEnv) (t : PortState) :
    restore_amfid_port env (restore_amfid_port env t) =
      restore_amfid_port env t := by
  simp only [restore_amfid_port, mach_port_destroy]
  rcases Bool.eq_false_or_eq_true env.restore_set_ok with hr | hr <;>
    by_cases hf : t.fake_amfid_port = MACH_PORT_NULL <;>
      simp [hr, hf, MACH_PORT_NULL]
  all_goals split <;> rfl

/-- C3: after `replace_amfid_port` succeeds, `restore_amfid_port` puts back
into the special-port slot exactly the endpoint the hijack read from the slot
immediately before overwriting it; and restoring is idempotent — a second
call leaves the registry and the process's endpoint state unchanged. -/
theorem hijack_restore_roundtrip (env : PortEnv) (s t : PortState)
    (hset : env.restore_set_ok = true)
    (hh : replace_amfid_port env s = some t) :
    (restore_amfid_port env t).registry = s.registry ∧
      restore_amfid_port env (restore_amfid_port env t) =
        restore_amfid_port env t := by
  refine ⟨?_, restore_amfid_port_idem env t⟩
  simp only [replace_amfid_port] at hh
  split_ifs at hh with h1 h2 h3
  all_goals simp only [Option.some.injEq] at hh
  subst hh
  simp [restore_amfid_port, mach_port_destroy, hset]
  split <;> rfl

/-- Concrete port environment in which every kernel call succeeds. -/
def portEnvOk : PortEnv :=
  { get_ok := true, construct_ok := true, set_ok := true, restore_set_ok := true }

/-- Concrete pre-hijack state: the real amfid endpoint 33 is registered. -/
def portS : PortState :=
  { registry := 33, amfid_port := 0, fake_amfid_port := 0,
    host_port_main := 1, nextPort := 40, destroyed := [] }

/-- The state `replace_amfid_port` produces from `portS`: endpoint 33
retained, fresh endpoint 40 constructed and registered. -/
def portT : PortState :=
  { registry := 40, amfid_port := 33, fake_amfid_port := 40,
    host_port_main := 1, nextPort := 41, destroyed := [] }

/-- Witness for C3 at the concrete hijack of endpoint 33 by endpoint 40. -/
theorem hijack_restore_roundtrip_witness :
    portEnvOk.restore_set_ok = true ∧
    replace_amfid_port portEnvOk portS = some portT ∧
    (restore_amfid_port portEnvOk portT).registry = portS.registry ∧
    restore_amfid_port portEnvOk (restore_amfid_port portEnvOk portT) =
      restore_amfid_port portEnvOk portT :=
  ⟨rfl, by decide,
   (hijack_restore_roundtrip portEnvOk portS portT rfl (by decide)).1,
   (hijack_restore_roundtrip portEnvOk portS portT rfl (by decide)).2⟩

/-- A process environment in which amfid runs exactly once with PID 500, the
process directory maps PID 500 to task handle 7, the `HOST_AMFID_PORT`
special port holds endpoint 9, and the threadexec context is just the port it
was built from. -/
def procEnvBug : ProcEnv :=
  { proc_list_pids_with_path := fun p => if p = AMFID_PATH then [500] else []
    task_for_pid := fun pid => if pid = 500 then some 7 else none
    host_amfid_port := some 9
    threadexec_init := fun port => some port }

/-- C5: `create_amfid_threadexec` does not build the execution context from
the task handle of the PID it found.  In `procEnvBug` the found PID 500 has
task handle 7, yet the code hands `threadexec_init` the `HOST_AMFID_PORT`
special port 9 obtained via `host_get_amfid_port` — contradicting its own
comment ("Get amfid's task port") and the spec's `task_for_pid` interface,
which `acquire_execution_context_spec` follows. -/
theorem create_amfid_threadexec_ignores_found_pid :
    create_amfid_threadexec procEnvBug = some 9 ∧
    acquire_execution_context_spec procEnvBug = some 7 ∧
    create_amfid_threadexec procEnvBug ≠
      acquire_execution_context_spec procEnvBug :=
  ⟨by decide, by decide, by decide⟩

/-- Every reply the dispatcher builds is a plain inline-data message: the
complex bit is clear and the remote disposition is the request's send-once
reply right. -/
theorem amfid_server_reply_shape (env : Env) (r : Request) :
    (amfid_server env r).complex = false ∧
      (amfid_server env r).sendOnce = true := by
  cases r <;> simp [amfid_server]

/-- When no reply is complex and every reply keeps the send-once disposition,
no run of the relay loop ever reaches the `assert` halt. -/
theorem halt_not_mem_runServer (env : LoopEnv)
    (hshape : ∀ i, env.replyComplex i = false ∧ env.replySendOnce i = true) :
    ∀ l : List Nat, Event.halt ∉ runServer env l := by
  intro l
  induction l with
  | nil => simp [runServer]
  | cons i rest ih =>
    rw [runServer_cons]
    intro hmem
    rcases List.mem_append.mp hmem with hmem | hmem
    · simp only [iterEvents, migSemanticsEvents] at hmem
      split_ifs at hmem <;> simp_all [(hshape i).1, (hshape i).2]
    · split_ifs at hmem
      · exact ih hmem
      · simp at hmem

/-- C6: the relay loop serves requests strictly one at a time in receipt
order: the run on `i :: rest` is the full iteration for `i` followed by the
run on `rest` (or nothing when the loop halts or breaks); no receive of a
later request occurs inside the iteration for `i`; and whenever the loop
goes on to receive the next request, an event completing the relay of `i` —
the remote send succeeding, or the reply-port right being released locally or
remotely — already lies inside the iteration for `i`. -/
theorem relay_strict_ordering (env : LoopEnv) (i : Nat) (rest : List Nat) :
    runServer env (i :: rest) =
      iterEvents env i ++
        (if iterContinues env i = true then runServer env rest else []) ∧
    (∀ j : Nat, Event.recv j ∈ iterEvents env i → j = i) ∧
    (iterContinues env i = true →
      ∃ e, e ∈ iterEvents env i ∧ relayDone i e = true) := by
  refine ⟨runServer_cons env i rest, ?_, ?_⟩
  · intro j hj
    simp only [iterEvents, migSemanticsEvents] at hj
    split_ifs at hj <;> simp_all
  · intro hcont
    simp only [iterContinues, Bool.and_eq_true, Bool.or_eq_true,
      Bool.not_eq_true', Bool.or_eq_false_iff, Bool.not_eq_false'] at hcont
    obtain ⟨⟨hc, hso⟩, hrelay⟩ := hcont
    rcases Bool.eq_false_or_eq_true (env.insertOk i) with hi | hi
    · rcases Bool.eq_false_or_eq_true (env.sendOk i) with hs | hs
      · exact ⟨Event.remoteSend i true,
          by simp [iterEvents, hc, hso, hi, hs], by simp [relayDone]⟩
      · exact ⟨Event.deallocRemote i,
          by simp [iterEvents, hc, hso, hi, hs], by simp [relayDone]⟩
    · exact ⟨Event.deallocLocal i,
        by simp [iterEvents, hc, hso, hi], by simp [relayDone]⟩

/-- A loop environment whose single request relays cleanly. -/
def envT : LoopEnv :=
  { replyComplex := fun _ => false, replySendOnce := fun _ => true,
    replyRet := fun _ => 0, insertOk := fun _ => true,
    sendOk := fun _ => true, alive := fun _ => true }

/-- Witness for C6: under `envT` the iteration for request 0 falls through,
and its relay-completion event exists inside that iteration. -/
theorem relay_strict_ordering_witness :
    iterContinues envT 0 = true ∧
    ∃ e, e ∈ iterEvents envT 0 ∧ relayDone 0 e = true :=
  ⟨by decide, (relay_strict_ordering envT 0 []).2.2 (by decide)⟩

/-- C7: the `pid_for_task` liveness probe runs only after a relay failure — a
failed right transfer or a failed remote send — never on the happy path; when
it finds amfid dead the loop ends with no further events (in particular no
further remote send), and when it finds amfid alive the loop goes back to
receive the next request. -/
theorem liveness_check_only_on_failure (env : LoopEnv) (i : Nat)
    (rest : List Nat) :
    (∀ b : Bool, Event.liveCheck i b ∈ iterEvents env i →
        env.insertOk i = false ∨ env.sendOk i = false) ∧
    (Event.liveCheck i false ∈ iterEvents env i →
        iterContinues env i = false ∧
        runServer env (i :: rest) = iterEvents env i ∧
        (∀ (j : Nat) (ok : Bool),
            Event.remoteSend j ok ∈ iterEvents env i → j = i)) ∧
    (Event.liveCheck i true ∈ iterEvents env i →
        runServer env (i :: rest) = iterEvents env i ++ runServer env rest) := by
  refine ⟨?_, ?_, ?_⟩
  · intro b hb
    simp only [iterEvents, migSemanticsEvents] at hb
    split_ifs at hb <;> simp_all
  · intro hb
    have hsplit : (env.insertOk i = false ∨ env.sendOk i = false) ∧
        env.alive i = false := by
      simp only [iterEvents, migSemanticsEvents] at hb
      split_ifs at hb <;> simp_all
    have hcont : iterContinues env i = false := by
      rcases hsplit with ⟨hf | hf, ha⟩ <;> simp [iterContinues, hf, ha]
    refine ⟨hcont, by simp [runServer_cons, hcont], ?_⟩
    intro j ok hj
    simp only [iterEvents, migSemanticsEvents] at hj
    split_ifs at hj <;> simp_all
  · intro hb
    have hsplit : (env.replyComplex i = false ∧ env.replySendOnce i = true) ∧
        env.alive i = true := by
      simp only [iterEvents, migSemanticsEvents] at hb
      split_ifs at hb <;> simp_all
    have hcont : iterContinues env i = true := by
      simp [iterContinues, hsplit.1.1, hsplit.1.2, hsplit.2]
    simp [runServer_cons, hcont]

/-- A loop environment in which request 0's right transfer fails and amfid is
found dead at the ensuing liveness probe. -/
def envF : LoopEnv :=
  { replyComplex := fun _ => false, replySendOnce := fun _ => true,
    replyRet := fun _ => 0, insertOk := fun _ => false,
    sendOk := fun _ => true, alive := fun _ => false }

/-- Witness for C7: under `envF` the probe event occurs, the iteration does
not continue, and the whole run is that single iteration. -/
theorem liveness_check_only_on_failure_witness :
    Event.liveCheck 0 false ∈ iterEvents envF 0 ∧
    iterContinues envF 0 = false ∧
    runServer envF [0] = iterEvents envF 0 :=
  ⟨by decide,
   ((liveness_check_only_on_failure envF 0 []).2.1 (by decide)).1,
   ((liveness_check_only_on_failure envF 0 []).2.1 (by decide)).2.1⟩

/-- C8: a complex reply out of the dispatch step makes the relay loop halt at
the `assert` — the iteration is receive, dispatch, halt, with no right
transfer and no remote send — while every reply `amfid_server` actually
builds from the two procedures has the complex bit clear, so a run driven by
the real dispatcher never reaches the halt. -/
theorem complex_reply_halts (envL : LoopEnv) (env : Env) (req : Nat → Request)
    (ins snd liv : Nat → Bool) (i : Nat) (rest l : List Nat)
    (hc : envL.replyComplex i = true) :
    runServer envL (i :: rest) = [Event.recv i, Event.dispatch i, Event.halt] ∧
    (∀ r : Request, (amfid_server env r).complex = false) ∧
    Event.halt ∉ runServer (mkLoopEnv env req ins snd liv) l := by
  refine ⟨?_, fun r => (amfid_server_reply_shape env r).1,
    halt_not_mem_runServer _
      (fun j => ⟨(amfid_server_reply_shape env (req j)).1,
                 (amfid_server_reply_shape env (req j)).2⟩) l⟩
  simp [runServer, migSemanticsEvents, hc]

/-- A loop environment whose dispatch step yields a complex reply for every
request. -/
def envC : LoopEnv :=
  { replyComplex := fun _ => true, replySendOnce := fun _ => true,
    replyRet := fun _ => 0, insertOk := fun _ => true,
    sendOk := fun _ => true, alive := fun _ => true }

/-- Witness for C8: under `envC` the run on one request is receive, dispatch,
halt, and a run driven by the real dispatcher on two requests never halts. -/
theorem complex_reply_halts_witness :
    envC.replyComplex 0 = true ∧
    runServer envC [0] = [Event.recv 0, Event.dispatch 0, Event.halt] ∧
    Event.halt ∉
      runServer (mkLoopEnv envA (fun _ => Request.unknown) (fun _ => true)
        (fun _ => true) (fun _ => true)) [0, 1] :=
  ⟨rfl,
   (complex_reply_halts envC envA (fun _ => Request.unknown) (fun _ => true)
     (fun _ => true) (fun _ => true) 0 [] [0, 1] rfl).1,
   (complex_reply_halts envC envA (fun _ => Request.unknown) (fun _ => true)
     (fun _ => true) (fun _ => true) 0 [] [0, 1] rfl).2.2⟩

/-- C4: with the valid kernel token, `verify_code_directory_mig` fails with a
hash-computation failure exactly when the file cannot be opened, the offset
is out of range of the file's size, or mapping/hashing fails; on such a
failure the out-parameters — the reply's hash buffer included — are left
untouched and only that request is rejected; and a cleanly-relaying loop
iteration falls through to receive the next request. -/
theorem hash_failure_exact (env : Env) (path : String) (file_offset : Nat)
    (a4 a5 a6 : Int) (out : VerifyOut) (req : Nat → Request) (i : Nat)
    (rest : List Nat) :
    ((compute_cdhash_of_file env path file_offset).1 = none ↔
        hashFailCond env path file_offset = true) ∧
    (hashFailCond env path file_offset = true →
        verify_code_directory_mig env path file_offset a4 a5 a6 out
            KERNEL_AUDIT_TOKEN_VALUE =
          { ret := KERN_FAILURE, out := out,
            fsEvents := (compute_cdhash_of_file env path file_offset).2 }) ∧
    runServer (mkLoopEnv env req (fun _ => true) (fun _ => true)
        (fun _ => true)) (i :: rest) =
      iterEvents (mkLoopEnv env req (fun _ => true) (fun _ => true)
          (fun _ => true)) i ++
        runServer (mkLoopEnv env req (fun _ => true) (fun _ => true)
            (fun _ => true)) rest := by
  have hiff : (compute_cdhash_of_file env path file_offset).1 = none ↔
      hashFailCond env path file_offset = true := by
    rcases hfs : env.fs path with _ | bytes
    · simp [compute_cdhash_of_file, hashFailCond, hfs]
    · by_cases hoff : bytes.length ≤ file_offset
      · simp [compute_cdhash_of_file, hashFailCond, hfs, hoff, ge_iff_le]
      · rcases Bool.eq_false_or_eq_true (env.mmapFails path file_offset)
          with hm | hm
        · simp [compute_cdhash_of_file, hashFailCond, hfs, hoff, hm, ge_iff_le]
        · rcases hcd : env.compute_cdhash (bytes.drop file_offset)
            with _ | digest <;>
            simp [compute_cdhash_of_file, hashFailCond, hfs, hoff, hm, hcd,
              ge_iff_le]
  refine ⟨hiff, ?_, ?_⟩
  · intro hfail
    have hnone := hiff.mpr hfail
    rcases hc : compute_cdhash_of_file env path file_offset with ⟨o, evs⟩
    rw [hc] at hnone
    simp only at hnone
    subst hnone
    simp [verify_code_directory_mig, hc]
  · have hcont : iterContinues (mkLoopEnv env req (fun _ => true)
        (fun _ => true) (fun _ => true)) i = true := by
      simp [iterContinues, mkLoopEnv, (amfid_server_reply_shape env (req i)).1,
        (amfid_server_reply_shape env (req i)).2]
    simp [runServer_cons, hcont]

/-- Witness for C4: in `envA` the offset 5 lies past the three-byte file, the
hash-failure condition holds, and the call is rejected with the out-buffer
untouched. -/
theorem hash_failure_exact_witness :
    hashFailCond envA "/bin/ls" 5 = true ∧
    verify_code_directory_mig envA "/bin/ls" 5 11 12 13 outA
        KERNEL_AUDIT_TOKEN_VALUE =
      { ret := KERN_FAILURE, out := outA,
        fsEvents := (compute_cdhash_of_file envA "/bin/ls" 5).2 } :=
  ⟨by decide,
   (hash_failure_exact envA "/bin/ls" 5 11 12 13 outA
     (fun _ => Request.unknown) 0 []).2.1 (by decide)⟩

end Manticore
